import Mathlib

/-!
Shallow embedding of `src/app.py` (sistema-de-banco-2.0), the core banking
engine: holder registration, account opening, deposit/withdrawal with the
daily-count reset, and statement rendering.

Modelling conventions:
* Python `float` amounts are modelled as exact rationals (`ℚ`); every
  arithmetic step of the source is a single exact operation here.
* `datetime.now().date()` (`_hoje`) and the timestamp text interpolated into
  log entries are nondeterministic inputs of the source; they are passed as
  explicit parameters (`hoje : Date`, `now : String`).
* Python dicts (`usuarios`, `contas`) are association lists in insertion
  order; keys are inserted only when absent, so first-match lookup agrees
  with dict lookup.
* Each `raise ValueError(msg)` site of the source is modelled as the error
  kind the spec assigns to that site (§7), carrying the source's message
  string, so distinct raise sites stay distinguishable.
* In-place mutation of a `Conta` is explicit state passing: the account
  facades return the post-call account state together with the raised error
  (if any), so a mutation that happens before a raise is observable.
-/

/-- Calendar date, as Python's `datetime.date` (year, month, day). -/
structure Date where
  year : Nat
  month : Nat
  day : Nat
deriving DecidableEq

/-- Python `Usuario` dataclass: name, birth date, digits-only CPF, address. -/
structure Usuario where
  nome : String
  data_nascimento : Date
  cpf : String
  endereco : String
deriving DecidableEq

/-- Python `Conta` dataclass with its default field values. -/
structure Conta where
  agencia : String := "0001"
  numero : Nat := 0
  cpf_titular : String := ""
  saldo : ℚ := 0
  extrato : List String := []
  numero_saques_hoje : Nat := 0
  data_referencia_saques : Option Date := none
deriving DecidableEq

/-- Error kinds of spec §7; each constructor carries the message of the
Python `raise ValueError(...)` site it models. -/
inductive BankError where
  | validationError (msg : String)
  | duplicateError (msg : String)
  | notFoundError (msg : String)
  | insufficientFundsError (msg : String)
  | limitExceededError (msg : String)
deriving DecidableEq

deriving instance DecidableEq for Except

/-- First-match lookup in an association list; models Python dict lookup
(`d.get(k)` / `k in d`) for dicts whose keys are inserted only when absent. -/
def dictGet {κ α : Type} [BEq κ] (d : List (κ × α)) (k : κ) : Option α :=
  (d.find? (fun p => p.1 == k)).map Prod.snd

/-- Python `somente_digitos`: keep only the digit characters of a string. -/
def somente_digitos (texto : String) : String :=
  String.mk (texto.data.filter Char.isDigit)

/-- Python `str.strip()`: drop leading and trailing whitespace. -/
def pythonStrip (s : String) : String :=
  String.mk (((s.data.dropWhile Char.isWhitespace).reverse.dropWhile Char.isWhitespace).reverse)

/-- Split a character list at every occurrence of `sep` (the character-level
splitting Python's `strptime` does on the `/` of the format `%d/%m/%Y`). -/
def splitOnChar (sep : Char) : List Char → List (List Char)
  | [] => [[]]
  | a :: rest =>
    match splitOnChar sep rest with
    | [] => [[a]]
    | h :: t => if a == sep then [] :: h :: t else (a :: h) :: t

/-- Numeric value of a digit string (most significant digit first). -/
def digitsToNat (l : List Char) : Nat :=
  l.foldl (fun acc c => 10 * acc + (c.toNat - 48)) 0

/-- Round-half-even of `n / d` in the naturals (`d ≠ 0` expected); the
rounding Python's fixed-point float formatting applies. -/
def centavos (n d : Nat) : Nat :=
  let f := n / d
  let r := n % d
  if 2 * r < d then f
  else if 2 * r > d then f + 1
  else if f % 2 = 0 then f else f + 1

/-- Split a list of characters into chunks of three (tail chunk shorter). -/
def chunk3 : List Char → List (List Char)
  | a :: b :: c :: rest => [a, b, c] :: chunk3 rest
  | [] => []
  | l => [l]

/-- Insert a `.` thousands separator every three digits from the right. -/
def group3 (s : String) : String :=
  String.mk (List.intercalate ['.'] (((chunk3 s.data.reverse).map List.reverse).reverse))

/-- Render a natural below 100 with two digits. -/
def doisDigitos (n : Nat) : String :=
  if n < 10 then "0" ++ toString n else toString n

/-- Python `formatar_moeda`: `f"R$ {valor:,.2f}"` with `,`/`.` swapped, i.e.
two fixed decimals, `.` thousands grouping, `,` decimal separator. -/
def formatar_moeda (valor : ℚ) : String :=
  "R$ " ++ (if valor < 0 then "-" else "")
    ++ group3 (toString (centavos (|valor| * 100).num.toNat (|valor| * 100).den / 100))
    ++ "," ++ doisDigitos (centavos (|valor| * 100).num.toNat (|valor| * 100).den % 100)

/-- Leap-year rule of the Gregorian calendar (Python `calendar`/`datetime`). -/
def isLeap (y : Nat) : Bool :=
  (y % 4 == 0 && y % 100 != 0) || y % 400 == 0

/-- Number of days of month `m` of year `y`. -/
def daysInMonth (y m : Nat) : Nat :=
  if m == 2 then (if isLeap y then 29 else 28)
  else if m == 4 || m == 6 || m == 9 || m == 11 then 30
  else 31

/-- Python `datetime.strptime(s, "%d/%m/%Y").date()` as a total function:
day and month take one or two digits, the year exactly four, and the triple
must be a valid calendar date; `none` models the `ValueError`. -/
def strptime_dmY (s : String) : Option Date :=
  match splitOnChar '/' s.data with
  | [ds, ms, ys] =>
    if 1 ≤ ds.length && ds.length ≤ 2 && ds.all Char.isDigit
        && 1 ≤ ms.length && ms.length ≤ 2 && ms.all Char.isDigit
        && ys.length == 4 && ys.all Char.isDigit then
      if 1 ≤ digitsToNat ys && 1 ≤ digitsToNat ms && digitsToNat ms ≤ 12
          && 1 ≤ digitsToNat ds
          && digitsToNat ds ≤ daysInMonth (digitsToNat ys) (digitsToNat ms) then
        some ⟨digitsToNat ys, digitsToNat ms, digitsToNat ds⟩
      else none
    else none
  | _ => none

/-- Python `criar_usuario`: normalizes the CPF, rejects an empty result,
rejects a duplicate, parses the birth date, then stores the new holder.
Returns the outcome together with the post-call registry. -/
def criar_usuario (nome data_nascimento_str cpf endereco : String)
    (usuarios : List (String × Usuario)) :
    Except BankError Usuario × List (String × Usuario) :=
  if somente_digitos cpf = "" then
    (.error (.validationError "CPF inválido: informe ao menos um dígito."), usuarios)
  else if (dictGet usuarios (somente_digitos cpf)).isSome then
    (.error (.duplicateError "Já existe usuário com este CPF."), usuarios)
  else
    match strptime_dmY data_nascimento_str with
    | none =>
      (.error (.validationError "Data de nascimento inválida. Use o formato DD/MM/AAAA."), usuarios)
    | some dn =>
      (.ok ⟨pythonStrip nome, dn, somente_digitos cpf, pythonStrip endereco⟩,
        usuarios ++
          [(somente_digitos cpf,
            ⟨pythonStrip nome, dn, somente_digitos cpf, pythonStrip endereco⟩)])

/-- Python `1 if not contas else (max(contas.keys()) + 1)`: the next account
number assigned by `criar_conta` (for `Nat` keys, `max` of a nonempty key
list equals its left fold of `max` from `0`). -/
def proximo_numero (contas : List (Nat × Conta)) : Nat :=
  if contas.isEmpty then 1 else ((contas.map Prod.fst).foldl max 0) + 1

/-- Python `criar_conta`: requires an existing holder, assigns the next
sequential number (`1` if the registry is empty, else `max(keys) + 1`),
stores and returns the fresh account, with the post-call registry. -/
def criar_conta (cpf_titular : String) (usuarios : List (String × Usuario))
    (contas : List (Nat × Conta)) :
    Except BankError Conta × List (Nat × Conta) :=
  if (dictGet usuarios (somente_digitos cpf_titular)).isSome then
    (.ok { agencia := "0001", numero := proximo_numero contas,
            cpf_titular := somente_digitos cpf_titular },
      contas ++ [(proximo_numero contas,
        { agencia := "0001", numero := proximo_numero contas,
          cpf_titular := somente_digitos cpf_titular })])
  else
    (.error (.notFoundError "Usuário não encontrado para o CPF informado."), contas)

/-- Python `deposito`: rejects a non-positive amount, else adds it to the
balance and appends the log line (timestamp text passed as `now`). -/
def deposito (saldo valor : ℚ) (extrato : List String) (now : String) :
    Except BankError (ℚ × List String) :=
  if valor ≤ 0 then
    .error (.validationError "Valor de depósito deve ser positivo.")
  else
    .ok (saldo + valor, extrato ++
      [now ++ " | DEPÓSITO   | +" ++ formatar_moeda valor ++
        " | Saldo: " ++ formatar_moeda (saldo + valor)])

/-- Python `_resetar_contagem_saques_se_novo_dia`: if the stored reference
date is not `hoje`, set it to `hoje` and zero the counter. -/
def resetar_contagem_saques_se_novo_dia (hoje : Date) (conta : Conta) : Conta :=
  if conta.data_referencia_saques ≠ some hoje then
    { conta with data_referencia_saques := some hoje, numero_saques_hoje := 0 }
  else conta

/-- Python `saque`: the four checks in source order (positivity, funds,
per-transaction limit, daily count), then the mutation and the log line. -/
def saque (saldo valor : ℚ) (extrato : List String) (limite : ℚ)
    (numero_saques limite_saques : Nat) (now : String) :
    Except BankError (ℚ × List String × Nat) :=
  if valor ≤ 0 then
    .error (.validationError "Valor de saque deve ser positivo.")
  else if valor > saldo then
    .error (.insufficientFundsError "Saldo insuficiente para saque.")
  else if valor > limite then
    .error (.limitExceededError "Valor excede o limite por saque.")
  else if numero_saques ≥ limite_saques then
    .error (.limitExceededError "Limite de saques do período atingido.")
  else
    .ok (saldo - valor, extrato ++
      [now ++ " | SAQUE      | -" ++ formatar_moeda valor ++
        " | Saldo: " ++ formatar_moeda (saldo - valor)],
      numero_saques + 1)

/-- Python `"\n".join` of a list of lines. -/
def join_nl : List String → String
  | [] => ""
  | [a] => a
  | a :: rest => a ++ "\n" ++ join_nl rest

/-- Python `exibir_extrato`: header, then the entries (or the placeholder
when there are none), then the current balance, joined with newlines. -/
def exibir_extrato (saldo : ℚ) (extrato : List String) : String :=
  join_nl (["\n========== EXTRATO =========="]
    ++ (if !extrato.isEmpty then extrato else ["(Sem movimentações)"])
    ++ ["Saldo atual: " ++ formatar_moeda saldo]
    ++ ["=============================\n"])

/-- Python `depositar_na_conta`: facade over `deposito` on the account's own
fields. Returns the post-call account and the raised error, if any. -/
def depositar_na_conta (conta : Conta) (valor : ℚ) (now : String) :
    Conta × Option BankError :=
  match deposito conta.saldo valor conta.extrato now with
  | .error e => (conta, some e)
  | .ok (s, ex) => ({ conta with saldo := s, extrato := ex }, none)

/-- Python `sacar_da_conta`: runs the new-day reset first (an in-place
mutation), then `saque`; on an exception the reset's effect persists, so the
error case carries the reset account as the post-call state. -/
def sacar_da_conta (hoje : Date) (now : String) (conta : Conta) (valor : ℚ)
    (limite_por_saque : ℚ) (limite_saques_dia : Nat) :
    Conta × Option BankError :=
  match saque (resetar_contagem_saques_se_novo_dia hoje conta).saldo valor
      (resetar_contagem_saques_se_novo_dia hoje conta).extrato limite_por_saque
      (resetar_contagem_saques_se_novo_dia hoje conta).numero_saques_hoje
      limite_saques_dia now with
  | .error e => (resetar_contagem_saques_se_novo_dia hoje conta, some e)
  | .ok (s, ex, n) =>
    ({ resetar_contagem_saques_se_novo_dia hoje conta with
        saldo := s, extrato := ex, numero_saques_hoje := n }, none)

/-- Python `extrato_da_conta`: render the statement of one account. -/
def extrato_da_conta (conta : Conta) : String :=
  exibir_extrato conta.saldo conta.extrato

/-- One ledger operation applied to an account, with its nondeterministic
inputs (today's date, timestamp text) and configuration made explicit. -/
inductive Op where
  | dep (valor : ℚ) (now : String)
  | saq (hoje : Date) (now : String) (valor : ℚ) (limite : ℚ) (limite_saques : Nat)

/-- Post-call account state of one operation (the error, if raised, is
swallowed by the CLI loop; the account keeps its post-call state). -/
def aplicar (conta : Conta) (op : Op) : Conta :=
  match op with
  | .dep valor now => (depositar_na_conta conta valor now).1
  | .saq hoje now valor limite ls => (sacar_da_conta hoje now conta valor limite ls).1

/-- Account state after a sequence of ledger operations. -/
def executar (conta : Conta) (ops : List Op) : Conta :=
  ops.foldl aplicar conta

/-- Sample holder used by the concrete witnesses. -/
def u0 : Usuario := ⟨"Ana", ⟨2000, 1, 1⟩, "12345678900", "Rua A, 1, Centro, SP/SP"⟩

/-- Registry holding just `u0`. -/
def usuarios0 : List (String × Usuario) := [("12345678900", u0)]

/-- Account with an empty balance whose counter (2 withdrawals) refers to
2024-01-01. -/
def conta0 : Conta :=
  { numero := 1, cpf_titular := "12345678900", saldo := 0, extrato := [],
    numero_saques_hoje := 2, data_referencia_saques := some ⟨2024, 1, 1⟩ }

/-- Funded account whose counter refers to 2024-01-02 (no withdrawals yet). -/
def conta1 : Conta :=
  { numero := 1, cpf_titular := "12345678900", saldo := 1000, extrato := [],
    numero_saques_hoje := 0, data_referencia_saques := some ⟨2024, 1, 2⟩ }

/-- Funded account whose counter already reached 3 on 2024-01-02. -/
def conta2 : Conta :=
  { numero := 1, cpf_titular := "12345678900", saldo := 1000, extrato := [],
    numero_saques_hoje := 3, data_referencia_saques := some ⟨2024, 1, 2⟩ }

/-- The account `criar_conta` produces for `u0` on an empty registry. -/
def contaNova : Conta :=
  { agencia := "0001", numero := 1, cpf_titular := "12345678900" }

theorem resetar_saldo (hoje : Date) (conta : Conta) :
    (resetar_contagem_saques_se_novo_dia hoje conta).saldo = conta.saldo := by
  unfold resetar_contagem_saques_se_novo_dia
  split <;> rfl

theorem resetar_extrato (hoje : Date) (conta : Conta) :
    (resetar_contagem_saques_se_novo_dia hoje conta).extrato = conta.extrato := by
  unfold resetar_contagem_saques_se_novo_dia
  split <;> rfl

theorem resetar_data_ref (hoje : Date) (conta : Conta) :
    (resetar_contagem_saques_se_novo_dia hoje conta).data_referencia_saques = some hoje := by
  unfold resetar_contagem_saques_se_novo_dia
  split <;> simp_all

theorem resetar_of_eq (hoje : Date) (conta : Conta)
    (h : conta.data_referencia_saques = some hoje) :
    resetar_contagem_saques_se_novo_dia hoje conta = conta := by
  unfold resetar_contagem_saques_se_novo_dia
  simp [h]

theorem resetar_of_ne (hoje : Date) (conta : Conta)
    (h : conta.data_referencia_saques ≠ some hoje) :
    resetar_contagem_saques_se_novo_dia hoje conta =
      { conta with numero_saques_hoje := 0, data_referencia_saques := some hoje } := by
  unfold resetar_contagem_saques_se_novo_dia
  simp [h]

theorem sacar_eq_ok (hoje : Date) (now : String) (conta : Conta) (valor limite : ℚ)
    (ls : Nat) (h1 : 0 < valor) (h2 : valor ≤ conta.saldo) (h3 : valor ≤ limite)
    (h4 : (resetar_contagem_saques_se_novo_dia hoje conta).numero_saques_hoje < ls) :
    sacar_da_conta hoje now conta valor limite ls =
      ({ resetar_contagem_saques_se_novo_dia hoje conta with
          saldo := conta.saldo - valor,
          extrato := conta.extrato ++
            [now ++ " | SAQUE      | -" ++ formatar_moeda valor ++
              " | Saldo: " ++ formatar_moeda (conta.saldo - valor)],
          numero_saques_hoje :=
            (resetar_contagem_saques_se_novo_dia hoje conta).numero_saques_hoje + 1 },
        none) := by
  unfold sacar_da_conta saque
  rw [resetar_saldo, resetar_extrato]
  rw [if_neg (not_le.mpr h1), if_neg (not_lt.mpr h2), if_neg (not_lt.mpr h3),
    if_neg (not_le.mpr h4)]

theorem sacar_err_state (hoje : Date) (now : String) (conta : Conta) (valor limite : ℚ)
    (ls : Nat) (e : BankError)
    (h : (sacar_da_conta hoje now conta valor limite ls).2 = some e) :
    (sacar_da_conta hoje now conta valor limite ls).1 =
      resetar_contagem_saques_se_novo_dia hoje conta := by
  unfold sacar_da_conta at h ⊢
  rcases hs : saque (resetar_contagem_saques_se_novo_dia hoje conta).saldo valor
      (resetar_contagem_saques_se_novo_dia hoje conta).extrato limite
      (resetar_contagem_saques_se_novo_dia hoje conta).numero_saques_hoje ls now
    with e' | v
  · rfl
  · obtain ⟨s, ex, n⟩ := v
    rw [hs] at h
    simp at h

/-- C2: the withdrawal validation order is fixed: positivity, then funds
sufficiency, then the per-transaction limit, then the daily count; for an
input violating several rules the earliest violated check's error is raised
(a non-positive amount yields the validation error even when funds are also
insufficient, and `valor > saldo` yields the insufficient-funds error even
when `valor` also exceeds the per-transaction limit). -/
theorem saque_validation_order (saldo valor : ℚ) (extrato : List String) (limite : ℚ)
    (numero_saques limite_saques : Nat) (now : String) :
    (valor ≤ 0 →
      saque saldo valor extrato limite numero_saques limite_saques now =
        .error (.validationError "Valor de saque deve ser positivo."))
    ∧ (0 < valor → saldo < valor →
      saque saldo valor extrato limite numero_saques limite_saques now =
        .error (.insufficientFundsError "Saldo insuficiente para saque."))
    ∧ (0 < valor → valor ≤ saldo → limite < valor →
      saque saldo valor extrato limite numero_saques limite_saques now =
        .error (.limitExceededError "Valor excede o limite por saque."))
    ∧ (0 < valor → valor ≤ saldo → valor ≤ limite → limite_saques ≤ numero_saques →
      saque saldo valor extrato limite numero_saques limite_saques now =
        .error (.limitExceededError "Limite de saques do período atingido.")) := by
  refine ⟨fun h1 => ?_, fun h1 h2 => ?_, fun h1 h2 h3 => ?_, fun h1 h2 h3 h4 => ?_⟩ <;>
    unfold saque
  · rw [if_pos h1]
  · rw [if_neg (not_le.mpr h1), if_pos h2]
  · rw [if_neg (not_le.mpr h1), if_neg (not_lt.mpr h2), if_pos h3]
  · rw [if_neg (not_le.mpr h1), if_neg (not_lt.mpr h2), if_neg (not_lt.mpr h3),
      if_pos h4]

/-- Witness for the validation order: one concrete input per check, each
violating every later rule as well. -/
theorem saque_validation_order_witness :
    (saque 100 0 [] 500 0 3 "t" =
      .error (.validationError "Valor de saque deve ser positivo."))
    ∧ (saque 100 200 [] 50 5 3 "t" =
      .error (.insufficientFundsError "Saldo insuficiente para saque."))
    ∧ (saque 1000 600 [] 500 5 3 "t" =
      .error (.limitExceededError "Valor excede o limite por saque."))
    ∧ (saque 1000 100 [] 500 3 3 "t" =
      .error (.limitExceededError "Limite de saques do período atingido.")) :=
  ⟨(saque_validation_order 100 0 [] 500 0 3 "t").1 (by norm_num),
   (saque_validation_order 100 200 [] 50 5 3 "t").2.1 (by norm_num) (by norm_num),
   (saque_validation_order 1000 600 [] 500 5 3 "t").2.2.1 (by norm_num) (by norm_num)
     (by norm_num),
   (saque_validation_order 1000 100 [] 500 3 3 "t").2.2.2 (by norm_num) (by norm_num)
     (by norm_num) (by norm_num)⟩

/-- C1 is refuted at `conta0` on 2024-01-02: the withdrawal fails with the
insufficient-funds error, yet the failing call changes both the withdrawal
counter and the counter's reference date, because the step-1 new-day reset
mutates the account before validation and persists when `saque` raises. -/
theorem sacar_failing_call_still_mutates :
    ((sacar_da_conta ⟨2024, 1, 2⟩ "t" conta0 10 500 3).2 =
      some (.insufficientFundsError "Saldo insuficiente para saque."))
    ∧ (sacar_da_conta ⟨2024, 1, 2⟩ "t" conta0 10 500 3).1.numero_saques_hoje ≠
        conta0.numero_saques_hoje
    ∧ (sacar_da_conta ⟨2024, 1, 2⟩ "t" conta0 10 500 3).1.data_referencia_saques ≠
        conta0.data_referencia_saques := by
  decide

/-- C1 (amended): a failing deposit leaves the account unchanged; a failing
withdrawal leaves the balance and the log unchanged and leaves the account
exactly in the state produced by the step-1 new-day reset — in particular
fully unchanged whenever the reference date was already today. -/
theorem failing_ops_mutate_only_via_reset (conta : Conta) (hoje : Date) (now : String)
    (valor limite : ℚ) (ls : Nat) (e e' : BankError) :
    ((depositar_na_conta conta valor now).2 = some e' →
      (depositar_na_conta conta valor now).1 = conta)
    ∧ ((sacar_da_conta hoje now conta valor limite ls).2 = some e →
        (sacar_da_conta hoje now conta valor limite ls).1.saldo = conta.saldo
        ∧ (sacar_da_conta hoje now conta valor limite ls).1.extrato = conta.extrato
        ∧ (sacar_da_conta hoje now conta valor limite ls).1 =
            resetar_contagem_saques_se_novo_dia hoje conta
        ∧ (conta.data_referencia_saques = some hoje →
            (sacar_da_conta hoje now conta valor limite ls).1 = conta)) := by
  constructor
  · intro h
    unfold depositar_na_conta deposito at h ⊢
    by_cases hv : valor ≤ 0
    · rw [if_pos hv]
    · rw [if_neg hv] at h
      simp at h
  · intro h
    have hst := sacar_err_state hoje now conta valor limite ls e h
    refine ⟨?_, ?_, hst, ?_⟩
    · rw [hst, resetar_saldo]
    · rw [hst, resetar_extrato]
    · intro hd
      rw [hst, resetar_of_eq hoje conta hd]

/-- Witness for the amended C1: a rejected deposit and a same-day rejected
withdrawal, each leaving the concrete account exactly as it was. -/
theorem failing_ops_mutate_only_via_reset_witness :
    (depositar_na_conta conta1 (-5) "t").1 = conta1
    ∧ (sacar_da_conta ⟨2024, 1, 1⟩ "t" conta0 10 500 3).1 = conta0 :=
  ⟨(failing_ops_mutate_only_via_reset conta1 ⟨2024, 1, 1⟩ "t" (-5) 500 3
      (.validationError "Valor de depósito deve ser positivo.")
      (.validationError "Valor de depósito deve ser positivo.")).1 (by decide),
   ((failing_ops_mutate_only_via_reset conta0 ⟨2024, 1, 1⟩ "t" 10 500 3
      (.insufficientFundsError "Saldo insuficiente para saque.")
      (.insufficientFundsError "Saldo insuficiente para saque.")).2
     (by decide)).2.2.2 (by decide)⟩

/-- C3: a withdrawal with a positive amount within funds and the
per-transaction limit, whose post-reset counter is below the daily limit,
succeeds: the balance drops by the amount, the counter increments by exactly
one, and exactly one log entry recording the withdrawal, the amount and the
resulting balance is appended; a second such call moves the balance again —
a replay is a distinct side-effecting operation, not idempotent. -/
theorem sacar_success_spec (conta : Conta) (hoje : Date) (now now2 : String)
    (valor limite : ℚ) (ls : Nat)
    (h1 : 0 < valor) (h2 : valor ≤ conta.saldo) (h3 : valor ≤ limite)
    (h4 : (resetar_contagem_saques_se_novo_dia hoje conta).numero_saques_hoje < ls) :
    (sacar_da_conta hoje now conta valor limite ls).2 = none
    ∧ (sacar_da_conta hoje now conta valor limite ls).1.saldo = conta.saldo - valor
    ∧ (sacar_da_conta hoje now conta valor limite ls).1.numero_saques_hoje =
        (resetar_contagem_saques_se_novo_dia hoje conta).numero_saques_hoje + 1
    ∧ (sacar_da_conta hoje now conta valor limite ls).1.extrato =
        conta.extrato ++
          [now ++ " | SAQUE      | -" ++ formatar_moeda valor ++
            " | Saldo: " ++ formatar_moeda (conta.saldo - valor)]
    ∧ (valor ≤ conta.saldo - valor →
        (resetar_contagem_saques_se_novo_dia hoje conta).numero_saques_hoje + 1 < ls →
        (sacar_da_conta hoje now2 (sacar_da_conta hoje now conta valor limite ls).1
            valor limite ls).1.saldo = conta.saldo - valor - valor
        ∧ conta.saldo - valor - valor ≠ conta.saldo - valor) := by
  have hok := sacar_eq_ok hoje now conta valor limite ls h1 h2 h3 h4
  refine ⟨by rw [hok], by rw [hok], by rw [hok], by rw [hok], ?_⟩
  intro h5 h6
  constructor
  · have hres : resetar_contagem_saques_se_novo_dia hoje
        (sacar_da_conta hoje now conta valor limite ls).1 =
        (sacar_da_conta hoje now conta valor limite ls).1 :=
      resetar_of_eq _ _ (by rw [hok]; exact resetar_data_ref hoje conta)
    have h2' : valor ≤ (sacar_da_conta hoje now conta valor limite ls).1.saldo := by
      rw [hok]; exact h5
    have h4' : (resetar_contagem_saques_se_novo_dia hoje
        (sacar_da_conta hoje now conta valor limite ls).1).numero_saques_hoje < ls := by
      rw [hres, hok]; exact h6
    have hok2 := sacar_eq_ok hoje now2 (sacar_da_conta hoje now conta valor limite ls).1
      valor limite ls h1 h2' h3 h4'
    rw [hok2, hok]
  · intro hq
    have : valor = 0 := by linarith
    exact absurd this (by linarith)

/-- Witness for C3 at `conta1` (1000 in funds, counter 0) on its own
reference day: two successive 100-unit withdrawals, each one side-effecting. -/
theorem sacar_success_spec_witness :
    (sacar_da_conta ⟨2024, 1, 2⟩ "t" conta1 100 500 3).2 = none
    ∧ (sacar_da_conta ⟨2024, 1, 2⟩ "t" conta1 100 500 3).1.saldo = conta1.saldo - 100
    ∧ (sacar_da_conta ⟨2024, 1, 2⟩ "u"
        (sacar_da_conta ⟨2024, 1, 2⟩ "t" conta1 100 500 3).1 100 500 3).1.saldo =
          conta1.saldo - 100 - 100 :=
  ⟨(sacar_success_spec conta1 ⟨2024, 1, 2⟩ "t" "u" 100 500 3 (by norm_num) (by decide)
      (by norm_num) (by decide)).1,
   (sacar_success_spec conta1 ⟨2024, 1, 2⟩ "t" "u" 100 500 3 (by norm_num) (by decide)
      (by norm_num) (by decide)).2.1,
   ((sacar_success_spec conta1 ⟨2024, 1, 2⟩ "t" "u" 100 500 3 (by norm_num) (by decide)
      (by norm_num) (by decide)).2.2.2.2 (by norm_num [conta1]) (by decide)).1⟩

/-- C4: the daily counter tracks the current calendar day only: when the
stored reference date is not today the call first zeroes the counter and
stamps today, so the first otherwise-valid withdrawal of a new day succeeds
whatever the prior day's count; and on the stored day itself, once the
counter has reached the daily limit an otherwise-valid attempt fails with
the daily-limit error. -/
theorem daily_counter_per_day (conta : Conta) (hoje : Date) (now : String)
    (valor limite : ℚ) (ls : Nat) :
    (conta.data_referencia_saques ≠ some hoje →
      resetar_contagem_saques_se_novo_dia hoje conta =
        { conta with numero_saques_hoje := 0, data_referencia_saques := some hoje })
    ∧ (conta.data_referencia_saques ≠ some hoje → 0 < valor → valor ≤ conta.saldo →
        valor ≤ limite → 0 < ls →
        (sacar_da_conta hoje now conta valor limite ls).2 = none)
    ∧ (conta.data_referencia_saques = some hoje → ls ≤ conta.numero_saques_hoje →
        0 < valor → valor ≤ conta.saldo → valor ≤ limite →
        (sacar_da_conta hoje now conta valor limite ls).2 =
          some (.limitExceededError "Limite de saques do período atingido.")) := by
  refine ⟨resetar_of_ne hoje conta, ?_, ?_⟩
  · intro hne h1 h2 h3 hls
    have h4 : (resetar_contagem_saques_se_novo_dia hoje conta).numero_saques_hoje < ls := by
      rw [resetar_of_ne hoje conta hne]; exact hls
    rw [sacar_eq_ok hoje now conta valor limite ls h1 h2 h3 h4]
  · intro heq hcnt h1 h2 h3
    unfold sacar_da_conta saque
    rw [resetar_of_eq hoje conta heq]
    rw [if_neg (not_le.mpr h1), if_neg (not_lt.mpr h2), if_neg (not_lt.mpr h3),
      if_pos hcnt]

/-- Witness for C4 at `conta2`, whose counter reached 3 on 2024-01-02: a
fourth same-day attempt fails with the daily-limit error, while the first
attempt of 2024-01-03 succeeds after the reset. -/
theorem daily_counter_per_day_witness :
    resetar_contagem_saques_se_novo_dia ⟨2024, 1, 3⟩ conta2 =
      { conta2 with numero_saques_hoje := 0, data_referencia_saques := some ⟨2024, 1, 3⟩ }
    ∧ (sacar_da_conta ⟨2024, 1, 3⟩ "t" conta2 100 500 3).2 = none
    ∧ (sacar_da_conta ⟨2024, 1, 2⟩ "t" conta2 100 500 3).2 =
        some (.limitExceededError "Limite de saques do período atingido.") :=
  ⟨(daily_counter_per_day conta2 ⟨2024, 1, 3⟩ "t" 100 500 3).1 (by decide),
   (daily_counter_per_day conta2 ⟨2024, 1, 3⟩ "t" 100 500 3).2.1 (by decide) (by norm_num)
     (by decide) (by norm_num) (by norm_num),
   (daily_counter_per_day conta2 ⟨2024, 1, 2⟩ "t" 100 500 3).2.2 (by decide) (by decide)
     (by norm_num) (by decide) (by norm_num)⟩

/-- C5: a deposit of a non-positive amount fails with the validation error
and leaves the account unchanged; a deposit of any positive amount (no upper
bound) succeeds, adds the amount to the balance, and appends exactly one log
entry recording the deposit, that amount and the new balance. -/
theorem deposito_facade_rules (conta : Conta) (valor : ℚ) (now : String) :
    (valor ≤ 0 →
      depositar_na_conta conta valor now =
        (conta, some (.validationError "Valor de depósito deve ser positivo.")))
    ∧ (0 < valor →
      depositar_na_conta conta valor now =
        ({ conta with
            saldo := conta.saldo + valor,
            extrato := conta.extrato ++
              [now ++ " | DEPÓSITO   | +" ++ formatar_moeda valor ++
                " | Saldo: " ++ formatar_moeda (conta.saldo + valor)] }, none)) := by
  constructor
  · intro h
    unfold depositar_na_conta deposito
    rw [if_pos h]
  · intro h
    unfold depositar_na_conta deposito
    rw [if_neg (not_le.mpr h)]

/-- Witness for C5 at `conta1`: a zero deposit is rejected without mutation,
a deposit of 25 lands in the balance and the log. -/
theorem deposito_facade_rules_witness :
    (depositar_na_conta conta1 0 "t" =
      (conta1, some (.validationError "Valor de depósito deve ser positivo.")))
    ∧ (depositar_na_conta conta1 25 "t" =
      ({ conta1 with
          saldo := conta1.saldo + 25,
          extrato := conta1.extrato ++
            ["t" ++ " | DEPÓSITO   | +" ++ formatar_moeda 25 ++
              " | Saldo: " ++ formatar_moeda (conta1.saldo + 25)] }, none)) :=
  ⟨(deposito_facade_rules conta1 0 "t").1 (by norm_num),
   (deposito_facade_rules conta1 25 "t").2 (by norm_num)⟩

theorem aplicar_saldo_nonneg (conta : Conta) (op : Op) (h : 0 ≤ conta.saldo) :
    0 ≤ (aplicar conta op).saldo := by
  cases op with
  | dep valor now =>
    show 0 ≤ (depositar_na_conta conta valor now).1.saldo
    unfold depositar_na_conta deposito
    by_cases hv : valor ≤ 0
    · rw [if_pos hv]
      exact h
    · rw [if_neg hv]
      push_neg at hv
      show 0 ≤ conta.saldo + valor
      linarith
  | saq hoje now valor limite ls =>
    show 0 ≤ (sacar_da_conta hoje now conta valor limite ls).1.saldo
    unfold sacar_da_conta saque
    rw [resetar_saldo, resetar_extrato]
    have hr : 0 ≤ (resetar_contagem_saques_se_novo_dia hoje conta).saldo := by
      rw [resetar_saldo]; exact h
    split_ifs with h1 h2 h3 h4
    · exact hr
    · exact hr
    · exact hr
    · exact hr
    · show 0 ≤ conta.saldo - valor
      have := not_lt.mp h2
      linarith

theorem executar_saldo_nonneg (ops : List Op) (conta : Conta) (h : 0 ≤ conta.saldo) :
    0 ≤ (executar conta ops).saldo := by
  induction ops generalizing conta with
  | nil => exact h
  | cons op rest ih => exact ih (aplicar conta op) (aplicar_saldo_nonneg conta op h)

/-- C6: an account opened by `criar_conta` starts at balance 0, and after
any sequence of deposit and withdrawal operations its balance is still
nonnegative — in particular no successful withdrawal drives it below zero
(a withdrawal only succeeds when the amount is at most the balance). -/
theorem saldo_never_negative (cpf : String) (usuarios : List (String × Usuario))
    (contas rest : List (Nat × Conta)) (conta : Conta) (ops : List Op)
    (h : criar_conta cpf usuarios contas = (.ok conta, rest)) :
    conta.saldo = 0 ∧ 0 ≤ (executar conta ops).saldo := by
  have h0 : conta.saldo = 0 := by
    unfold criar_conta at h
    split_ifs at h with hc
    · rw [Prod.mk.injEq] at h
      obtain ⟨h1, -⟩ := h
      rw [Except.ok.injEq] at h1
      rw [← h1]
    · rw [Prod.mk.injEq] at h
      obtain ⟨h1, -⟩ := h
      simp at h1
  exact ⟨h0, executar_saldo_nonneg ops conta (le_of_eq h0.symm)⟩

/-- Witness for C6: the freshly opened account for `u0`, a deposit of 100
followed by a withdrawal of 30, ends at a nonnegative balance. -/
theorem saldo_never_negative_witness :
    contaNova.saldo = 0
    ∧ 0 ≤ (executar contaNova [Op.dep 100 "t", Op.saq ⟨2024, 1, 2⟩ "u" 30 500 3]).saldo :=
  saldo_never_negative "12345678900" usuarios0 [] [(1, contaNova)] contaNova
    [Op.dep 100 "t", Op.saq ⟨2024, 1, 2⟩ "u" 30 500 3] (by decide)

theorem criar_conta_of_found (cpf : String) (usuarios : List (String × Usuario))
    (contas : List (Nat × Conta))
    (h : (dictGet usuarios (somente_digitos cpf)).isSome = true) :
    criar_conta cpf usuarios contas =
      (.ok { agencia := "0001", numero := proximo_numero contas,
             cpf_titular := somente_digitos cpf },
       contas ++ [(proximo_numero contas,
         { agencia := "0001", numero := proximo_numero contas,
           cpf_titular := somente_digitos cpf })]) := by
  unfold criar_conta
  rw [if_pos h]

theorem criar_conta_of_not_found (cpf : String) (usuarios : List (String × Usuario))
    (contas : List (Nat × Conta))
    (h : (dictGet usuarios (somente_digitos cpf)).isSome = false) :
    criar_conta cpf usuarios contas =
      (.error (.notFoundError "Usuário não encontrado para o CPF informado."), contas) := by
  unfold criar_conta
  rw [if_neg (by simp [h])]

/-- C7: account numbers are sequential: with no holder registered under the
normalized identifier the call fails with the not-found error and both the
registry and the next assigned number are unchanged; with a registered
holder the new account gets number `proximo_numero contas` (1 on an empty
registry, else max key + 1) and is appended under that key; hence opening
three accounts in a row starting from an empty registry yields the numbers
1, 2, 3 whatever holders they belong to. -/
theorem criar_conta_sequencial (cpf a b c : String) (usuarios : List (String × Usuario))
    (contas : List (Nat × Conta)) :
    ((dictGet usuarios (somente_digitos cpf)).isSome = false →
      criar_conta cpf usuarios contas =
        (.error (.notFoundError "Usuário não encontrado para o CPF informado."), contas)
      ∧ proximo_numero (criar_conta cpf usuarios contas).2 = proximo_numero contas)
    ∧ ((dictGet usuarios (somente_digitos cpf)).isSome = true →
      (criar_conta cpf usuarios contas).1 =
        .ok { agencia := "0001", numero := proximo_numero contas,
              cpf_titular := somente_digitos cpf }
      ∧ (criar_conta cpf usuarios contas).2 =
          contas ++ [(proximo_numero contas,
            { agencia := "0001", numero := proximo_numero contas,
              cpf_titular := somente_digitos cpf })])
    ∧ ((dictGet usuarios (somente_digitos a)).isSome = true →
      (dictGet usuarios (somente_digitos b)).isSome = true →
      (dictGet usuarios (somente_digitos c)).isSome = true →
      ∃ c1 c2 c3 r1 r2 r3,
        criar_conta a usuarios [] = (.ok c1, r1)
        ∧ criar_conta b usuarios r1 = (.ok c2, r2)
        ∧ criar_conta c usuarios r2 = (.ok c3, r3)
        ∧ c1.numero = 1 ∧ c2.numero = 2 ∧ c3.numero = 3) := by
  refine ⟨?_, ?_, ?_⟩
  · intro h
    rw [criar_conta_of_not_found cpf usuarios contas h]
    exact ⟨rfl, rfl⟩
  · intro h
    rw [criar_conta_of_found cpf usuarios contas h]
    exact ⟨rfl, rfl⟩
  · intro ha hb hc
    refine ⟨_, _, _, _, _, _,
      criar_conta_of_found a usuarios [] ha,
      criar_conta_of_found b usuarios _ hb,
      criar_conta_of_found c usuarios _ hc, rfl, ?_, ?_⟩
    · norm_num [proximo_numero]
    · norm_num [proximo_numero]

/-- Witness for C7 on the one-holder registry `usuarios0`: an unknown CPF is
rejected with the registry intact, and three successive openings for the
registered holder get numbers 1, 2, 3. -/
theorem criar_conta_sequencial_witness :
    (criar_conta "99900011122" usuarios0 [] =
      (.error (.notFoundError "Usuário não encontrado para o CPF informado."), [])
      ∧ proximo_numero (criar_conta "99900011122" usuarios0 []).2 = proximo_numero [])
    ∧ (∃ c1 c2 c3 r1 r2 r3,
        criar_conta "12345678900" usuarios0 [] = (.ok c1, r1)
        ∧ criar_conta "12345678900" usuarios0 r1 = (.ok c2, r2)
        ∧ criar_conta "12345678900" usuarios0 r2 = (.ok c3, r3)
        ∧ c1.numero = 1 ∧ c2.numero = 2 ∧ c3.numero = 3) :=
  ⟨(criar_conta_sequencial "99900011122" "12345678900" "12345678900" "12345678900"
      usuarios0 []).1 (by decide),
   (criar_conta_sequencial "99900011122" "12345678900" "12345678900" "12345678900"
      usuarios0 []).2.2 (by decide) (by decide) (by decide)⟩

/-- C8: registration normalizes the identifier to its digits, rejects an
empty result with the validation error, and rejects an already-registered
normalized identifier with the duplicate error; concretely, registering
"123.456.789-00" and "12345678900" fails the second time with the duplicate
error in either submission order, since both normalize to the same digits. -/
theorem criar_usuario_unicidade (nome dn cpf endereco : String)
    (usuarios : List (String × Usuario)) :
    (somente_digitos cpf = "" →
      criar_usuario nome dn cpf endereco usuarios =
        (.error (.validationError "CPF inválido: informe ao menos um dígito."), usuarios))
    ∧ (somente_digitos cpf ≠ "" → (dictGet usuarios (somente_digitos cpf)).isSome = true →
      criar_usuario nome dn cpf endereco usuarios =
        (.error (.duplicateError "Já existe usuário com este CPF."), usuarios))
    ∧ ((criar_usuario "Bia" "02/02/1999" "12345678900" "Rua B"
          (criar_usuario "Ana" "01/01/2000" "123.456.789-00" "Rua A" []).2).1 =
        .error (.duplicateError "Já existe usuário com este CPF."))
    ∧ ((criar_usuario "Bia" "02/02/1999" "123.456.789-00" "Rua B"
          (criar_usuario "Ana" "01/01/2000" "12345678900" "Rua A" []).2).1 =
        .error (.duplicateError "Já existe usuário com este CPF.")) := by
  refine ⟨?_, ?_, by decide, by decide⟩
  · intro h
    unfold criar_usuario
    rw [if_pos h]
  · intro h1 h2
    unfold criar_usuario
    rw [if_neg h1, if_pos h2]

/-- Witness for C8: a masked identifier with no digit is rejected, and
re-registering the digits of `u0`'s CPF under a mask is a duplicate. -/
theorem criar_usuario_unicidade_witness :
    (criar_usuario "Ana" "01/01/2000" "..." "Rua A" [] =
      (.error (.validationError "CPF inválido: informe ao menos um dígito."), []))
    ∧ (criar_usuario "Bia" "02/02/1999" "123.456.789-00" "Rua B" usuarios0 =
      (.error (.duplicateError "Já existe usuário com este CPF."), usuarios0)) :=
  ⟨(criar_usuario_unicidade "Ana" "01/01/2000" "..." "Rua A" []).1 (by decide),
   (criar_usuario_unicidade "Bia" "02/02/1999" "123.456.789-00" "Rua B" usuarios0).2.1
     (by decide) (by decide)⟩

/-- C10: in `criar_usuario` the duplicate check precedes birth-date
validation: a registered normalized identifier yields the duplicate error
whatever the birth-date string is (parsable or not); and when the identifier
is fresh and non-empty but the birth date fails to parse, the call fails
with the date validation error and the registry is unchanged. -/
theorem criar_usuario_dup_antes_da_data (nome dn cpf endereco : String)
    (usuarios : List (String × Usuario)) :
    (somente_digitos cpf ≠ "" → (dictGet usuarios (somente_digitos cpf)).isSome = true →
      criar_usuario nome dn cpf endereco usuarios =
        (.error (.duplicateError "Já existe usuário com este CPF."), usuarios))
    ∧ (somente_digitos cpf ≠ "" → (dictGet usuarios (somente_digitos cpf)).isSome = false →
      strptime_dmY dn = none →
      criar_usuario nome dn cpf endereco usuarios =
        (.error (.validationError "Data de nascimento inválida. Use o formato DD/MM/AAAA."),
          usuarios)) := by
  constructor
  · intro h1 h2
    unfold criar_usuario
    rw [if_neg h1, if_pos h2]
  · intro h1 h2 h3
    unfold criar_usuario
    rw [if_neg h1, if_neg (by simp [h2]), h3]

/-- Witness for C10: re-registering `u0`'s CPF with the impossible date
"31/02/2000" still reports the duplicate, and a fresh CPF with that date
fails on the date with the registry left empty. -/
theorem criar_usuario_dup_antes_da_data_witness :
    (criar_usuario "Bia" "31/02/2000" "12345678900" "Rua B" usuarios0 =
      (.error (.duplicateError "Já existe usuário com este CPF."), usuarios0))
    ∧ (criar_usuario "Bia" "31/02/2000" "98765432100" "Rua B" [] =
      (.error (.validationError "Data de nascimento inválida. Use o formato DD/MM/AAAA."),
        [])) :=
  ⟨(criar_usuario_dup_antes_da_data "Bia" "31/02/2000" "12345678900" "Rua B" usuarios0).1
     (by decide) (by decide),
   (criar_usuario_dup_antes_da_data "Bia" "31/02/2000" "98765432100" "Rua B" []).2
     (by decide) (by decide) (by decide)⟩

theorem join_nl_cons (a : String) (l : List String) (h : l ≠ []) :
    join_nl (a :: l) = a ++ "\n" ++ join_nl l := by
  cases l with
  | nil => exact absurd rfl h
  | cons b m => rfl

theorem join_nl_append (xs ys : List String) (h : ys ≠ []) :
    join_nl (xs ++ ys) =
      if xs.isEmpty then join_nl ys else join_nl xs ++ "\n" ++ join_nl ys := by
  induction xs with
  | nil => simp
  | cons a m ih =>
    rw [List.cons_append, join_nl_cons a (m ++ ys)
      (by cases ys with
        | nil => exact absurd rfl h
        | cons c k => simp), ih]
    cases m with
    | nil => simp [join_nl]
    | cons b m2 =>
      rw [if_neg (by simp), if_neg (by simp)]
      rw [join_nl_cons a (b :: m2) (by simp)]
      simp [String.append_assoc]

theorem formatar_moeda_zero : formatar_moeda 0 = "R$ 0,00" := by
  unfold formatar_moeda
  have h1 : (|(0:ℚ)| * 100) = 0 := by norm_num
  rw [h1]
  decide

theorem exibir_extrato_eq (saldo : ℚ) (extrato : List String) :
    exibir_extrato saldo extrato =
      "\n========== EXTRATO ==========" ++ "\n" ++
        (if extrato.isEmpty then "(Sem movimentações)" else join_nl extrato) ++ "\n" ++
        "Saldo atual: " ++ formatar_moeda saldo ++ "\n" ++
        "=============================\n" := by
  unfold exibir_extrato
  rw [show ["\n========== EXTRATO =========="]
      ++ (if !extrato.isEmpty then extrato else ["(Sem movimentações)"])
      ++ ["Saldo atual: " ++ formatar_moeda saldo]
      ++ ["=============================\n"] =
    "\n========== EXTRATO ==========" ::
      ((if !extrato.isEmpty then extrato else ["(Sem movimentações)"]) ++
        ["Saldo atual: " ++ formatar_moeda saldo, "=============================\n"])
    from by simp]
  rw [join_nl_cons _ _ (by cases extrato <;> simp),
    join_nl_append _ _ (by simp)]
  cases extrato with
  | nil => simp [join_nl, ← String.append_assoc]
  | cons a l =>
    rw [if_pos (show (!(a :: l).isEmpty) = true from by simp)]
    rw [if_neg (by simp), if_neg (by simp)]
    simp [join_nl, ← String.append_assoc]

/-- C9: statement generation is a pure read (a function of the account that
returns text and passes no state back): the rendered text is the header,
then every log entry in stored order joined by newlines — or the placeholder
when the log is empty — then the current balance line, then the footer; an
account with no transactions and zero balance renders the placeholder and
the zero balance. -/
theorem extrato_rendering (saldo : ℚ) (extrato : List String) :
    (exibir_extrato saldo extrato =
      "\n========== EXTRATO ==========" ++ "\n" ++
        (if extrato.isEmpty then "(Sem movimentações)" else join_nl extrato) ++ "\n" ++
        "Saldo atual: " ++ formatar_moeda saldo ++ "\n" ++
        "=============================\n")
    ∧ (∀ co : Conta, co.extrato = [] → co.saldo = 0 →
        extrato_da_conta co =
          "\n========== EXTRATO ==========\n(Sem movimentações)\nSaldo atual: R$ 0,00\n=============================\n") := by
  refine ⟨exibir_extrato_eq saldo extrato, ?_⟩
  intro co h1 h2
  unfold extrato_da_conta
  rw [h1, h2, exibir_extrato_eq 0 [], formatar_moeda_zero]
  decide

/-- Witness for C9: the freshly opened zero-transaction account renders the
placeholder and the zero balance. -/
theorem extrato_rendering_witness :
    extrato_da_conta contaNova =
      "\n========== EXTRATO ==========\n(Sem movimentações)\nSaldo atual: R$ 0,00\n=============================\n" :=
  (extrato_rendering 0 []).2 contaNova (by decide) (by decide)
